import Mathlib

/-!
Verification of the HAR 1.2 document model and its JSON codec
(repository: servo/rust-har, src/lib.rs).

The document model (the `Log` entity tree, the `OptionalTiming` and
`CacheState` value types, and the `Log::new` / `add_page` / `add_entry`
operations) is embedded directly from the source.  The per-type
encode/decode functions realize the wire-format rules of the design
document (optional-field omission, numeric sentinel timings, tri-state
cache presence); the serialization implementations themselves are not
part of the source file (only the type declarations, their doc comments
and the test suite are), so each codec definition carries a
`Modelled from the spec:` doc comment naming the rule it realizes.
-/

namespace Har

/-- A JSON value.  HAR numeric fields are integers (`u32`/`i32` in the
source), so numbers are embedded as `Int`. -/
inductive Json where
  | null : Json
  | bool (b : Bool) : Json
  | num (n : Int) : Json
  | str (s : String) : Json
  | arr (elems : List Json) : Json
  | obj (fields : List (String × Json)) : Json

/-- Look up a key in a JSON object; `none` on any non-object or when the
key is absent. -/
def Json.getKey : Json → String → Option Json
  | .obj fs, k => fs.lookup k
  | _, _ => none

/-- Whether a JSON value is the literal null. -/
def Json.isNull : Json → Bool
  | .null => true
  | _ => false

/-- Decode-error taxonomy of the design (§7): every failure is returned
as a value carrying entity-and-field path context. -/
inductive HarError where
  | missingField (path : String) : HarError
  | typeMismatch (path : String) : HarError
  | invalidTiming (path : String) : HarError
  | invalidCacheState (path : String) : HarError
  | malformedJson : HarError
deriving DecidableEq, Repr

/-! ## Document model (embedded from src/lib.rs) -/

def HAR_VERSION : String := "1.2"
def HAR_CREATOR_NAME : String := "Rust-HAR"
def HAR_CREATOR_VERSION : String := "0.0.4"

/-- Information about the log creator application. -/
structure Creator where
  name : String
  version : String
  comment : Option String
deriving DecidableEq, Repr

/-- Information about the browser that created the log. -/
structure Browser where
  name : String
  version : String
  comment : Option String
deriving DecidableEq, Repr

def Browser.new (name : String) (version : String) (comment : Option String) : Browser :=
  { name := name, version := version, comment := comment }

/-- A timing value which may be absent (`NotApplicable`) or a concrete
number of milliseconds (`TimedContent`, `u32` in the source, hence `Nat`). -/
inductive OptionalTiming where
  | TimedContent (ms : Nat) : OptionalTiming
  | NotApplicable : OptionalTiming
deriving DecidableEq, Repr

/-- Timings for events fired during the page load. -/
structure PageTimings where
  on_content_load : OptionalTiming
  on_load : OptionalTiming
  comment : Option String
deriving DecidableEq, Repr

def PageTimings.new (on_content_load : OptionalTiming) (on_load : OptionalTiming)
    (comment : Option String) : PageTimings :=
  { on_content_load := on_content_load, on_load := on_load, comment := comment }

/-- One exported page. -/
structure Page where
  started_date_time : String
  id : String
  title : String
  page_timings : PageTimings
  comment : Option String
deriving DecidableEq, Repr

def Page.new (started_date_time : String) (id : String) (title : String)
    (page_timings : PageTimings) (comment : Option String) : Page :=
  { started_date_time := started_date_time, id := id, title := title,
    page_timings := page_timings, comment := comment }

/-- A cookie (used in request and response objects). -/
structure Cookie where
  name : String
  value : String
  path : Option String
  domain : Option String
  expires : Option String
  http_only : Option Bool
  secure : Option Bool
  comment : Option String
deriving DecidableEq, Repr

/-- A header (used in request and response objects). -/
structure Header where
  name : String
  value : String
  comment : Option String
deriving DecidableEq, Repr

/-- A parameter parsed from the query string. -/
structure QueryStringPair where
  name : String
  value : String
  comment : Option String
deriving DecidableEq, Repr

/-- A posted parameter (embedded in a postData object). -/
structure Param where
  name : String
  value : Option String
  file_name : Option String
  content_type : Option String
  comment : Option String
deriving DecidableEq, Repr

/-- Posted data (embedded in a request object). -/
structure PostData where
  mime_type : String
  params : List Param
  text : String
  comment : Option String
deriving DecidableEq, Repr

/-- Details about response content. -/
structure Content where
  size : Int
  compression : Option Int
  mime_type : String
  text : Option String
  encoding : Option String
  comment : Option String
deriving DecidableEq, Repr

/-- A browser-cache entry descriptor. -/
structure CacheEntry where
  expires : Option String
  last_access : String
  e_tag : String
  hit_count : Int
  comment : Option String
deriving DecidableEq, Repr

/-- The state of a cache entry: `Absent`, `Present` with an entry, or
`Unknown`.  Serialized respectively as `null`, a CacheEntry object, or
no key at all. -/
inductive CacheState where
  | Absent : CacheState
  | Present (entry : CacheEntry) : CacheState
  | Unknown : CacheState
deriving DecidableEq, Repr

/-- Cache usage around one request. -/
structure Cache where
  before_request : CacheState
  after_request : CacheState
  comment : Option String
deriving DecidableEq, Repr

/-- Phases within the request-response round trip.  `send`, `wait` and
`receive` are mandatory non-negative (`u32`); the four others are
sentinel-capable. -/
structure Timing where
  blocked : OptionalTiming
  dns : OptionalTiming
  connect : OptionalTiming
  send : Nat
  wait : Nat
  receive : Nat
  ssl : OptionalTiming
  comment : Option String
deriving DecidableEq, Repr

/-- A performed request. -/
structure Request where
  method : String
  url : String
  http_version : String
  cookies : List Cookie
  headers : List Header
  query_string : List QueryStringPair
  post_data : Option PostData
  headers_size : Option Int
  body_size : Option Int
  comment : Option String
deriving DecidableEq, Repr

/-- A received response. -/
structure Response where
  status : Int
  status_text : String
  http_version : String
  cookies : List Cookie
  headers : List Header
  content : Content
  redirect_url : String
  headers_size : Option Int
  body_size : Option Int
  comment : Option String
deriving DecidableEq, Repr

/-- One request/response round trip. -/
structure Entry where
  pageref : Option String
  started_date_time : String
  request : Request
  response : Response
  cache : Cache
  timings : Timing
  server_ip_address : Option String
  connection : Option String
  comment : Option String
deriving DecidableEq, Repr

/-- The root of the exported data. -/
structure Log where
  version : String
  creator : Creator
  browser : Option Browser
  pages : Option (List Page)
  entries : List Entry
  comment : Option String
deriving DecidableEq, Repr

/-- `Log::new` from the source: fixed version and creator, optional
browser and comment, no pages, empty entry list. -/
def Log.new (browser : Option Browser) (comment : Option String) : Log :=
  { version := HAR_VERSION,
    creator := { name := HAR_CREATOR_NAME, version := HAR_CREATOR_VERSION, comment := none },
    browser := browser,
    pages := none,
    entries := [],
    comment := comment }

/-- `Log::add_page` from the source: appends to the page list, lazily
creating it on first use. -/
def Log.add_page (log : Log) (page : Page) : Log :=
  match log.pages with
  | some pages => { log with pages := some (pages ++ [page]) }
  | none => { log with pages := some [page] }

/-- `Log::add_entry` from the source: appends unconditionally. -/
def Log.add_entry (log : Log) (entry : Entry) : Log :=
  { log with entries := log.entries ++ [entry] }

/-! ## Encoders

Modelled from the spec: the serialization implementations are absent
from the source file (only the serde declarations and the test suite
remain), so these realize §4.2 (class-1 mandatory fields, class-2
always-present sequences, class-3 omitted-when-absent optionals),
§4.3 (numeric sentinel timings) and §4.4 (tri-state cache keys), with
the camel-case wire names fixed by §6 and the test suite. -/

/-- Modelled from the spec: a class-3 optional field contributes its key
only when the value is present (§4.2), never a JSON null. -/
def optF (k : String) : Option Json → List (String × Json)
  | none => []
  | some v => [(k, v)]

/-- Modelled from the spec: `OptionalTiming` encodes as a bare number,
with `-1` as the not-applicable sentinel (§4.3). -/
def encodeOptionalTiming : OptionalTiming → Json
  | .TimedContent ms => .num ms
  | .NotApplicable => .num (-1)

def encodeCreator (c : Creator) : Json :=
  .obj ([("name", .str c.name), ("version", .str c.version)]
    ++ optF "comment" (c.comment.map .str))

def encodeBrowser (b : Browser) : Json :=
  .obj ([("name", .str b.name), ("version", .str b.version)]
    ++ optF "comment" (b.comment.map .str))

def encodePageTimings (t : PageTimings) : Json :=
  .obj ([("onContentLoad", encodeOptionalTiming t.on_content_load),
         ("onLoad", encodeOptionalTiming t.on_load)]
    ++ optF "comment" (t.comment.map .str))

def encodePage (p : Page) : Json :=
  .obj ([("startedDateTime", .str p.started_date_time), ("id", .str p.id),
         ("title", .str p.title), ("pageTimings", encodePageTimings p.page_timings)]
    ++ optF "comment" (p.comment.map .str))

def encodeCookie (c : Cookie) : Json :=
  .obj ([("name", .str c.name), ("value", .str c.value)]
    ++ optF "path" (c.path.map .str)
    ++ optF "domain" (c.domain.map .str)
    ++ optF "expires" (c.expires.map .str)
    ++ optF "httpOnly" (c.http_only.map .bool)
    ++ optF "secure" (c.secure.map .bool)
    ++ optF "comment" (c.comment.map .str))

def encodeHeader (h : Header) : Json :=
  .obj ([("name", .str h.name), ("value", .str h.value)]
    ++ optF "comment" (h.comment.map .str))

def encodeQueryStringPair (q : QueryStringPair) : Json :=
  .obj ([("name", .str q.name), ("value", .str q.value)]
    ++ optF "comment" (q.comment.map .str))

def encodeParam (p : Param) : Json :=
  .obj ([("name", .str p.name)]
    ++ optF "value" (p.value.map .str)
    ++ optF "fileName" (p.file_name.map .str)
    ++ optF "contentType" (p.content_type.map .str)
    ++ optF "comment" (p.comment.map .str))

def encodePostData (d : PostData) : Json :=
  .obj ([("mimeType", .str d.mime_type),
         ("params", .arr (d.params.map encodeParam)),
         ("text", .str d.text)]
    ++ optF "comment" (d.comment.map .str))

def encodeContent (c : Content) : Json :=
  .obj ([("size", .num c.size)]
    ++ optF "compression" (c.compression.map .num)
    ++ [("mimeType", .str c.mime_type)]
    ++ optF "text" (c.text.map .str)
    ++ optF "encoding" (c.encoding.map .str)
    ++ optF "comment" (c.comment.map .str))

def encodeCacheEntry (e : CacheEntry) : Json :=
  .obj (optF "expires" (e.expires.map .str)
    ++ [("lastAccess", .str e.last_access), ("eTag", .str e.e_tag),
        ("hitCount", .num e.hit_count)]
    ++ optF "comment" (e.comment.map .str))

/-- Modelled from the spec: a `CacheState` contributes no key when
`Unknown`, the key with JSON null when `Absent`, and the key with the
encoded entry when `Present` (§4.4). -/
def cacheStateField (k : String) : CacheState → List (String × Json)
  | .Unknown => []
  | .Absent => [(k, .null)]
  | .Present e => [(k, encodeCacheEntry e)]

def encodeCache (c : Cache) : Json :=
  .obj (cacheStateField "beforeRequest" c.before_request
    ++ cacheStateField "afterRequest" c.after_request
    ++ optF "comment" (c.comment.map .str))

def encodeTiming (t : Timing) : Json :=
  .obj ([("blocked", encodeOptionalTiming t.blocked),
         ("dns", encodeOptionalTiming t.dns),
         ("connect", encodeOptionalTiming t.connect),
         ("send", .num t.send), ("wait", .num t.wait), ("receive", .num t.receive),
         ("ssl", encodeOptionalTiming t.ssl)]
    ++ optF "comment" (t.comment.map .str))

def encodeRequest (r : Request) : Json :=
  .obj ([("method", .str r.method), ("url", .str r.url),
         ("httpVersion", .str r.http_version),
         ("cookies", .arr (r.cookies.map encodeCookie)),
         ("headers", .arr (r.headers.map encodeHeader)),
         ("queryString", .arr (r.query_string.map encodeQueryStringPair))]
    ++ optF "postData" (r.post_data.map encodePostData)
    ++ optF "headersSize" (r.headers_size.map .num)
    ++ optF "bodySize" (r.body_size.map .num)
    ++ optF "comment" (r.comment.map .str))

def encodeResponse (r : Response) : Json :=
  .obj ([("status", .num r.status), ("statusText", .str r.status_text),
         ("httpVersion", .str r.http_version),
         ("cookies", .arr (r.cookies.map encodeCookie)),
         ("headers", .arr (r.headers.map encodeHeader)),
         ("content", encodeContent r.content),
         ("redirectURL", .str r.redirect_url)]
    ++ optF "headersSize" (r.headers_size.map .num)
    ++ optF "bodySize" (r.body_size.map .num)
    ++ optF "comment" (r.comment.map .str))

def encodeEntry (e : Entry) : Json :=
  .obj (optF "pageref" (e.pageref.map .str)
    ++ [("startedDateTime", .str e.started_date_time),
        ("request", encodeRequest e.request),
        ("response", encodeResponse e.response),
        ("cache", encodeCache e.cache),
        ("timings", encodeTiming e.timings)]
    ++ optF "serverIPAddress" (e.server_ip_address.map .str)
    ++ optF "connection" (e.connection.map .str)
    ++ optF "comment" (e.comment.map .str))

def encodeLog (l : Log) : Json :=
  .obj ([("version", .str l.version), ("creator", encodeCreator l.creator)]
    ++ optF "browser" (l.browser.map encodeBrowser)
    ++ optF "pages" (l.pages.map (fun ps => .arr (ps.map encodePage)))
    ++ [("entries", .arr (l.entries.map encodeEntry))]
    ++ optF "comment" (l.comment.map .str))

/-! ## Decoders

Modelled from the spec: the deserialization implementations are absent
from the source file; these realize §4.2-§4.6 and §7 (tolerant optional
decoding, missing-sequence-as-empty, sentinel timings, tri-state cache
keys, typed errors with entity-and-field path context, all-or-nothing
results).  The `headersSize`/`bodySize` sentinel decode follows the
source test suite (decoding `-1` there yields an absent value). -/

/-- Modelled from the spec: a mandatory string field; missing key is a
`missingField` error, a non-string value a `typeMismatch` (§4.2 class 1). -/
def reqString (p : String) (fs : List (String × Json)) (k : String) :
    Except HarError String :=
  match fs.lookup k with
  | none => .error (.missingField p)
  | some (.str s) => .ok s
  | some _ => .error (.typeMismatch p)

/-- Modelled from the spec: a mandatory integer field (§4.2 class 1). -/
def reqInt (p : String) (fs : List (String × Json)) (k : String) :
    Except HarError Int :=
  match fs.lookup k with
  | none => .error (.missingField p)
  | some (.num n) => .ok n
  | some _ => .error (.typeMismatch p)

/-- Modelled from the spec: a mandatory non-negative integer field
(`u32` in the model); negative numbers have the wrong shape (§4.6). -/
def reqNat (p : String) (fs : List (String × Json)) (k : String) :
    Except HarError Nat :=
  match fs.lookup k with
  | none => .error (.missingField p)
  | some (.num n) => if 0 ≤ n then .ok n.toNat else .error (.typeMismatch p)
  | some _ => .error (.typeMismatch p)

/-- Modelled from the spec: a class-3 optional string; both a missing
key and explicit null decode as absent (§4.2 class 3). -/
def optString (p : String) (fs : List (String × Json)) (k : String) :
    Except HarError (Option String) :=
  match fs.lookup k with
  | none => .ok none
  | some .null => .ok none
  | some (.str s) => .ok (some s)
  | some _ => .error (.typeMismatch p)

/-- Modelled from the spec: a class-3 optional integer (§4.2 class 3). -/
def optInt (p : String) (fs : List (String × Json)) (k : String) :
    Except HarError (Option Int) :=
  match fs.lookup k with
  | none => .ok none
  | some .null => .ok none
  | some (.num n) => .ok (some n)
  | some _ => .error (.typeMismatch p)

/-- Modelled from the spec: a class-3 optional boolean (§4.2 class 3). -/
def optBool (p : String) (fs : List (String × Json)) (k : String) :
    Except HarError (Option Bool) :=
  match fs.lookup k with
  | none => .ok none
  | some .null => .ok none
  | some (.bool b) => .ok (some b)
  | some _ => .error (.typeMismatch p)

/-- Modelled from the spec: the `headersSize`/`bodySize` fields of
`Request` and `Response`.  Per the source doc comments and tests
(`test_request_no_optional`, `test_response_no_optional`), the wire
value `-1` means the information is not available, so it decodes to the
absent model value; any other integer decodes to a present value. -/
def optSize (p : String) (fs : List (String × Json)) (k : String) :
    Except HarError (Option Int) :=
  match fs.lookup k with
  | none => .ok none
  | some .null => .ok none
  | some (.num n) => if n = -1 then .ok none else .ok (some n)
  | some _ => .error (.typeMismatch p)

/-- Modelled from the spec: `OptionalTiming` decodes from a bare number;
values `>= 0` are concrete, `-1` is the not-applicable sentinel, any
other negative value is an `invalidTiming` error (§4.3). -/
def decodeOptionalTiming (p : String) : Json → Except HarError OptionalTiming
  | .num n =>
    if 0 ≤ n then .ok (.TimedContent n.toNat)
    else if n = -1 then .ok .NotApplicable
    else .error (.invalidTiming p)
  | _ => .error (.typeMismatch p)

/-- Modelled from the spec: a mandatory `OptionalTiming` field; the key
itself is never omitted (§4.3). -/
def reqTiming (p : String) (fs : List (String × Json)) (k : String) :
    Except HarError OptionalTiming :=
  match fs.lookup k with
  | none => .error (.missingField p)
  | some j => decodeOptionalTiming p j

/-- Decode every element of a JSON array, all-or-nothing. -/
def decList (dec : Json → Except HarError α) : List Json → Except HarError (List α)
  | [] => .ok []
  | x :: xs => do
    let a ← dec x
    let as ← decList dec xs
    .ok (a :: as)

/-- Modelled from the spec: a mandatory ordered sequence; a missing key
decodes as the empty sequence, but a present key must be an array
(§4.2 class 2). -/
def reqArr (p : String) (dec : Json → Except HarError α)
    (fs : List (String × Json)) (k : String) : Except HarError (List α) :=
  match fs.lookup k with
  | none => .ok []
  | some (.arr xs) => decList dec xs
  | some _ => .error (.typeMismatch p)

/-- Modelled from the spec: a mandatory nested entity (§4.2 class 1). -/
def reqEnt (p : String) (dec : Json → Except HarError α)
    (fs : List (String × Json)) (k : String) : Except HarError α :=
  match fs.lookup k with
  | none => .error (.missingField p)
  | some j => dec j

/-- Modelled from the spec: a class-3 optional nested entity; both a
missing key and explicit null decode as absent (§4.2). -/
def optEnt ( _p : String) (dec : Json → Except HarError α)
    (fs : List (String × Json)) (k : String) : Except HarError (Option α) :=
  match fs.lookup k with
  | none => .ok none
  | some j =>
    if j.isNull then .ok none
    else do
      let a ← dec j
      .ok (some a)

/-- Modelled from the spec: a class-3 optional ordered sequence, used
for `Log.pages` (§4.2). -/
def optArr (p : String) (dec : Json → Except HarError α)
    (fs : List (String × Json)) (k : String) : Except HarError (Option (List α)) :=
  match fs.lookup k with
  | none => .ok none
  | some .null => .ok none
  | some (.arr xs) => do
    let as ← decList dec xs
    .ok (some as)
  | some _ => .error (.typeMismatch p)

def decodeCreator : Json → Except HarError Creator
  | .obj fs => do
    let name ← reqString "Creator.name" fs "name"
    let version ← reqString "Creator.version" fs "version"
    let comment ← optString "Creator.comment" fs "comment"
    .ok { name := name, version := version, comment := comment }
  | _ => .error (.typeMismatch "Creator")

def decodeBrowser : Json → Except HarError Browser
  | .obj fs => do
    let name ← reqString "Browser.name" fs "name"
    let version ← reqString "Browser.version" fs "version"
    let comment ← optString "Browser.comment" fs "comment"
    .ok { name := name, version := version, comment := comment }
  | _ => .error (.typeMismatch "Browser")

def decodePageTimings : Json → Except HarError PageTimings
  | .obj fs => do
    let ocl ← reqTiming "PageTimings.onContentLoad" fs "onContentLoad"
    let ol ← reqTiming "PageTimings.onLoad" fs "onLoad"
    let comment ← optString "PageTimings.comment" fs "comment"
    .ok { on_content_load := ocl, on_load := ol, comment := comment }
  | _ => .error (.typeMismatch "PageTimings")

def decodePage : Json → Except HarError Page
  | .obj fs => do
    let sdt ← reqString "Page.startedDateTime" fs "startedDateTime"
    let id ← reqString "Page.id" fs "id"
    let title ← reqString "Page.title" fs "title"
    let pt ← reqEnt "Page.pageTimings" decodePageTimings fs "pageTimings"
    let comment ← optString "Page.comment" fs "comment"
    .ok { started_date_time := sdt, id := id, title := title,
          page_timings := pt, comment := comment }
  | _ => .error (.typeMismatch "Page")

def decodeCookie : Json → Except HarError Cookie
  | .obj fs => do
    let name ← reqString "Cookie.name" fs "name"
    let value ← reqString "Cookie.value" fs "value"
    let path ← optString "Cookie.path" fs "path"
    let domain ← optString "Cookie.domain" fs "domain"
    let expires ← optString "Cookie.expires" fs "expires"
    let http_only ← optBool "Cookie.httpOnly" fs "httpOnly"
    let secure ← optBool "Cookie.secure" fs "secure"
    let comment ← optString "Cookie.comment" fs "comment"
    .ok { name := name, value := value, path := path, domain := domain,
          expires := expires, http_only := http_only, secure := secure,
          comment := comment }
  | _ => .error (.typeMismatch "Cookie")

def decodeHeader : Json → Except HarError Header
  | .obj fs => do
    let name ← reqString "Header.name" fs "name"
    let value ← reqString "Header.value" fs "value"
    let comment ← optString "Header.comment" fs "comment"
    .ok { name := name, value := value, comment := comment }
  | _ => .error (.typeMismatch "Header")

def decodeQueryStringPair : Json → Except HarError QueryStringPair
  | .obj fs => do
    let name ← reqString "QueryStringPair.name" fs "name"
    let value ← reqString "QueryStringPair.value" fs "value"
    let comment ← optString "QueryStringPair.comment" fs "comment"
    .ok { name := name, value := value, comment := comment }
  | _ => .error (.typeMismatch "QueryStringPair")

def decodeParam : Json → Except HarError Param
  | .obj fs => do
    let name ← reqString "Param.name" fs "name"
    let value ← optString "Param.value" fs "value"
    let file_name ← optString "Param.fileName" fs "fileName"
    let content_type ← optString "Param.contentType" fs "contentType"
    let comment ← optString "Param.comment" fs "comment"
    .ok { name := name, value := value, file_name := file_name,
          content_type := content_type, comment := comment }
  | _ => .error (.typeMismatch "Param")

def decodePostData : Json → Except HarError PostData
  | .obj fs => do
    let mime_type ← reqString "PostData.mimeType" fs "mimeType"
    let params ← reqArr "PostData.params" decodeParam fs "params"
    let text ← reqString "PostData.text" fs "text"
    let comment ← optString "PostData.comment" fs "comment"
    .ok { mime_type := mime_type, params := params, text := text,
          comment := comment }
  | _ => .error (.typeMismatch "PostData")

def decodeContent : Json → Except HarError Content
  | .obj fs => do
    let size ← reqInt "Content.size" fs "size"
    let compression ← optInt "Content.compression" fs "compression"
    let mime_type ← reqString "Content.mimeType" fs "mimeType"
    let text ← optString "Content.text" fs "text"
    let encoding ← optString "Content.encoding" fs "encoding"
    let comment ← optString "Content.comment" fs "comment"
    .ok { size := size, compression := compression, mime_type := mime_type,
          text := text, encoding := encoding, comment := comment }
  | _ => .error (.typeMismatch "Content")

def decodeCacheEntry : Json → Except HarError CacheEntry
  | .obj fs => do
    let expires ← optString "CacheEntry.expires" fs "expires"
    let last_access ← reqString "CacheEntry.lastAccess" fs "lastAccess"
    let e_tag ← reqString "CacheEntry.eTag" fs "eTag"
    let hit_count ← reqInt "CacheEntry.hitCount" fs "hitCount"
    let comment ← optString "CacheEntry.comment" fs "comment"
    .ok { expires := expires, last_access := last_access, e_tag := e_tag,
          hit_count := hit_count, comment := comment }
  | _ => .error (.typeMismatch "CacheEntry")

/-- Modelled from the spec: one `CacheState` key; a missing key is
`Unknown`, explicit null is `Absent`, a value that decodes as a
`CacheEntry` is `Present`, and a malformed sub-object is an
`invalidCacheState` error (§4.4, §4.6, §7). -/
def cacheStateOf (p : String) (fs : List (String × Json)) (k : String) :
    Except HarError CacheState :=
  match fs.lookup k with
  | none => .ok .Unknown
  | some j =>
    if j.isNull then .ok .Absent
    else
      match decodeCacheEntry j with
      | .ok e => .ok (.Present e)
      | .error _ => .error (.invalidCacheState p)

def decodeCache : Json → Except HarError Cache
  | .obj fs => do
    let br ← cacheStateOf "Cache.beforeRequest" fs "beforeRequest"
    let ar ← cacheStateOf "Cache.afterRequest" fs "afterRequest"
    let comment ← optString "Cache.comment" fs "comment"
    .ok { before_request := br, after_request := ar, comment := comment }
  | _ => .error (.typeMismatch "Cache")

def decodeTiming : Json → Except HarError Timing
  | .obj fs => do
    let blocked ← reqTiming "Timing.blocked" fs "blocked"
    let dns ← reqTiming "Timing.dns" fs "dns"
    let connect ← reqTiming "Timing.connect" fs "connect"
    let send ← reqNat "Timing.send" fs "send"
    let wait ← reqNat "Timing.wait" fs "wait"
    let receive ← reqNat "Timing.receive" fs "receive"
    let ssl ← reqTiming "Timing.ssl" fs "ssl"
    let comment ← optString "Timing.comment" fs "comment"
    .ok { blocked := blocked, dns := dns, connect := connect, send := send,
          wait := wait, receive := receive, ssl := ssl, comment := comment }
  | _ => .error (.typeMismatch "Timing")

def decodeRequest : Json → Except HarError Request
  | .obj fs => do
    let method ← reqString "Request.method" fs "method"
    let url ← reqString "Request.url" fs "url"
    let http_version ← reqString "Request.httpVersion" fs "httpVersion"
    let cookies ← reqArr "Request.cookies" decodeCookie fs "cookies"
    let headers ← reqArr "Request.headers" decodeHeader fs "headers"
    let query_string ← reqArr "Request.queryString" decodeQueryStringPair fs "queryString"
    let post_data ← optEnt "Request.postData" decodePostData fs "postData"
    let headers_size ← optSize "Request.headersSize" fs "headersSize"
    let body_size ← optSize "Request.bodySize" fs "bodySize"
    let comment ← optString "Request.comment" fs "comment"
    .ok { method := method, url := url, http_version := http_version,
          cookies := cookies, headers := headers, query_string := query_string,
          post_data := post_data, headers_size := headers_size,
          body_size := body_size, comment := comment }
  | _ => .error (.typeMismatch "Request")

def decodeResponse : Json → Except HarError Response
  | .obj fs => do
    let status ← reqInt "Response.status" fs "status"
    let status_text ← reqString "Response.statusText" fs "statusText"
    let http_version ← reqString "Response.httpVersion" fs "httpVersion"
    let cookies ← reqArr "Response.cookies" decodeCookie fs "cookies"
    let headers ← reqArr "Response.headers" decodeHeader fs "headers"
    let content ← reqEnt "Response.content" decodeContent fs "content"
    let redirect_url ← reqString "Response.redirectURL" fs "redirectURL"
    let headers_size ← optSize "Response.headersSize" fs "headersSize"
    let body_size ← optSize "Response.bodySize" fs "bodySize"
    let comment ← optString "Response.comment" fs "comment"
    .ok { status := status, status_text := status_text,
          http_version := http_version, cookies := cookies, headers := headers,
          content := content, redirect_url := redirect_url,
          headers_size := headers_size, body_size := body_size,
          comment := comment }
  | _ => .error (.typeMismatch "Response")

def decodeEntry : Json → Except HarError Entry
  | .obj fs => do
    let pageref ← optString "Entry.pageref" fs "pageref"
    let sdt ← reqString "Entry.startedDateTime" fs "startedDateTime"
    let request ← reqEnt "Entry.request" decodeRequest fs "request"
    let response ← reqEnt "Entry.response" decodeResponse fs "response"
    let cache ← reqEnt "Entry.cache" decodeCache fs "cache"
    let timings ← reqEnt "Entry.timings" decodeTiming fs "timings"
    let sip ← optString "Entry.serverIPAddress" fs "serverIPAddress"
    let connection ← optString "Entry.connection" fs "connection"
    let comment ← optString "Entry.comment" fs "comment"
    .ok { pageref := pageref, started_date_time := sdt, request := request,
          response := response, cache := cache, timings := timings,
          server_ip_address := sip, connection := connection,
          comment := comment }
  | _ => .error (.typeMismatch "Entry")

def decodeLog : Json → Except HarError Log
  | .obj fs => do
    let version ← reqString "Log.version" fs "version"
    let creator ← reqEnt "Log.creator" decodeCreator fs "creator"
    let browser ← optEnt "Log.browser" decodeBrowser fs "browser"
    let pages ← optArr "Log.pages" decodePage fs "pages"
    let entries ← reqArr "Log.entries" decodeEntry fs "entries"
    let comment ← optString "Log.comment" fs "comment"
    .ok { version := version, creator := creator, browser := browser,
          pages := pages, entries := entries, comment := comment }
  | _ => .error (.typeMismatch "Log")

/-! ## Validity

The wire format conflates `headersSize`/`bodySize` equal to `-1` with
the absent value (see `optSize`), so a value is wire-representable only
when those fields never hold a present `-1`. -/

abbrev SizeOk (o : Option Int) : Prop := o ≠ some (-1)

abbrev ValidRequest (r : Request) : Prop :=
  SizeOk r.headers_size ∧ SizeOk r.body_size

abbrev ValidResponse (r : Response) : Prop :=
  SizeOk r.headers_size ∧ SizeOk r.body_size

abbrev ValidEntry (e : Entry) : Prop :=
  ValidRequest e.request ∧ ValidResponse e.response

abbrev ValidLog (l : Log) : Prop := ∀ e ∈ l.entries, ValidEntry e

/-- The logs reachable from `Log::new` by `add_page` / `add_entry` calls. -/
inductive ReachableLog : Log → Prop where
  | new (b : Option Browser) (c : Option String) : ReachableLog (Log.new b c)
  | add_page (l : Log) (p : Page) : ReachableLog l → ReachableLog (l.add_page p)
  | add_entry (l : Log) (e : Entry) : ReachableLog l → ReachableLog (l.add_entry e)

/-! ## Concrete sample values (used to instantiate the theorems) -/

def samplePage : Page :=
  Page.new "2009-04-16T12:07:25.123+01:00" "page_0" "Test Page"
    (PageTimings.new .NotApplicable .NotApplicable none) none

def sampleCookie : Cookie :=
  { name := "TestCookie", value := "v", path := none, domain := none,
    expires := none, http_only := none, secure := none, comment := none }

def sampleContent : Content :=
  { size := 100, compression := none, mime_type := "text/html", text := none,
    encoding := none, comment := none }

def sampleRequest : Request :=
  { method := "GET", url := "http://www.example.com/", http_version := "HTTP/1.1",
    cookies := [], headers := [], query_string := [], post_data := none,
    headers_size := none, body_size := none, comment := none }

def sampleResponse : Response :=
  { status := 200, status_text := "OK", http_version := "HTTP/1.1",
    cookies := [], headers := [], content := sampleContent, redirect_url := "",
    headers_size := none, body_size := none, comment := none }

def sampleTiming : Timing :=
  { blocked := .NotApplicable, dns := .NotApplicable, connect := .NotApplicable,
    send := 4, wait := 5, receive := 6, ssl := .NotApplicable, comment := none }

def sampleEntry : Entry :=
  { pageref := none, started_date_time := "2009-04-16T12:07:23.596Z",
    request := sampleRequest, response := sampleResponse,
    cache := { before_request := .Unknown, after_request := .Unknown, comment := none },
    timings := sampleTiming, server_ip_address := none, connection := none,
    comment := none }

def sampleLog : Log := (Log.new none none).add_entry sampleEntry

/-! ## Round-trip lemmas -/

theorem rt_optTiming (p : String) (t : OptionalTiming) :
    decodeOptionalTiming p (encodeOptionalTiming t) = .ok t := by
  cases t <;> simp [encodeOptionalTiming, decodeOptionalTiming]

theorem isNull_obj (fs : List (String × Json)) : (Json.obj fs).isNull = false := rfl

theorem isNull_null : Json.null.isNull = true := rfl

theorem rt_creator (c : Creator) : decodeCreator (encodeCreator c) = .ok c := by
  obtain ⟨name, version, comment⟩ := c
  cases comment <;>
    simp [encodeCreator, decodeCreator, optF, reqString, optString, List.lookup,
      Except.bind, bind]

theorem rt_browser (b : Browser) : decodeBrowser (encodeBrowser b) = .ok b := by
  obtain ⟨name, version, comment⟩ := b
  cases comment <;>
    simp [encodeBrowser, decodeBrowser, optF, reqString, optString, List.lookup,
      Except.bind, bind]

theorem rt_pageTimings (t : PageTimings) :
    decodePageTimings (encodePageTimings t) = .ok t := by
  obtain ⟨ocl, ol, comment⟩ := t
  cases comment <;>
    simp [encodePageTimings, decodePageTimings, optF, reqTiming, rt_optTiming,
      optString, List.lookup, Except.bind, bind]

theorem rt_page (p : Page) : decodePage (encodePage p) = .ok p := by
  obtain ⟨sdt, id, title, pt, comment⟩ := p
  cases comment <;>
    simp [encodePage, decodePage, optF, reqString, reqEnt, rt_pageTimings,
      optString, List.lookup, Except.bind, bind]

theorem rt_cookie (c : Cookie) : decodeCookie (encodeCookie c) = .ok c := by
  obtain ⟨name, value, path, domain, expires, http_only, secure, comment⟩ := c
  cases path <;> cases domain <;> cases expires <;> cases http_only <;>
    cases secure <;> cases comment <;>
    simp [encodeCookie, decodeCookie, optF, reqString, optString, optBool,
      List.lookup, Except.bind, bind]

theorem rt_header (h : Header) : decodeHeader (encodeHeader h) = .ok h := by
  obtain ⟨name, value, comment⟩ := h
  cases comment <;>
    simp [encodeHeader, decodeHeader, optF, reqString, optString, List.lookup,
      Except.bind, bind]

theorem rt_qsp (q : QueryStringPair) :
    decodeQueryStringPair (encodeQueryStringPair q) = .ok q := by
  obtain ⟨name, value, comment⟩ := q
  cases comment <;>
    simp [encodeQueryStringPair, decodeQueryStringPair, optF, reqString,
      optString, List.lookup, Except.bind, bind]

theorem rt_param (p : Param) : decodeParam (encodeParam p) = .ok p := by
  obtain ⟨name, value, file_name, content_type, comment⟩ := p
  cases value <;> cases file_name <;> cases content_type <;> cases comment <;>
    simp [encodeParam, decodeParam, optF, reqString, optString, List.lookup,
      Except.bind, bind]

theorem decList_map_of {α : Type} {dec : Json → Except HarError α}
    {enc : α → Json} (h : ∀ x, dec (enc x) = .ok x) :
    ∀ xs : List α, decList dec (xs.map enc) = .ok xs := by
  intro xs
  induction xs with
  | nil => simp [decList]
  | cons x xs ih => simp [decList, h x, ih, Except.bind, bind]

theorem rt_postData (d : PostData) : decodePostData (encodePostData d) = .ok d := by
  obtain ⟨mime_type, params, text, comment⟩ := d
  cases comment <;>
    simp [encodePostData, decodePostData, optF, reqString, reqArr,
      decList_map_of rt_param, optString, List.lookup, Except.bind, bind]

theorem rt_content (c : Content) : decodeContent (encodeContent c) = .ok c := by
  obtain ⟨size, compression, mime_type, text, encoding, comment⟩ := c
  cases compression <;> cases text <;> cases encoding <;> cases comment <;>
    simp [encodeContent, decodeContent, optF, reqInt, reqString, optInt,
      optString, List.lookup, Except.bind, bind]

theorem rt_cacheEntry (e : CacheEntry) :
    decodeCacheEntry (encodeCacheEntry e) = .ok e := by
  obtain ⟨expires, last_access, e_tag, hit_count, comment⟩ := e
  cases expires <;> cases comment <;>
    simp [encodeCacheEntry, decodeCacheEntry, optF, reqString, reqInt,
      optString, List.lookup, Except.bind, bind]

theorem isNull_encodeCacheEntry (e : CacheEntry) :
    (encodeCacheEntry e).isNull = false := by
  obtain ⟨expires, last_access, e_tag, hit_count, comment⟩ := e
  cases expires <;> cases comment <;> simp [encodeCacheEntry, Json.isNull, optF]

theorem rt_cacheState (p k : String) (st : CacheState) :
    cacheStateOf p (cacheStateField k st) k = .ok st := by
  cases st <;>
    simp [cacheStateField, cacheStateOf, List.lookup, isNull_null,
      isNull_encodeCacheEntry, rt_cacheEntry]

theorem rt_cache (c : Cache) : decodeCache (encodeCache c) = .ok c := by
  obtain ⟨br, ar, comment⟩ := c
  cases br <;> cases ar <;> cases comment <;>
    simp [encodeCache, decodeCache, cacheStateField, cacheStateOf, optF,
      isNull_encodeCacheEntry, rt_cacheEntry, optString, List.lookup,
      isNull_null, Except.bind, bind]

theorem rt_timing (t : Timing) : decodeTiming (encodeTiming t) = .ok t := by
  obtain ⟨blocked, dns, connect, send, wait, receive, ssl, comment⟩ := t
  cases comment <;>
    simp [encodeTiming, decodeTiming, optF, reqTiming, rt_optTiming, reqNat,
      optString, List.lookup, Except.bind, bind]

theorem isNull_encodePostData (d : PostData) :
    (encodePostData d).isNull = false := by
  simp [encodePostData, Json.isNull]

theorem isNull_encodeBrowser (b : Browser) :
    (encodeBrowser b).isNull = false := by
  simp [encodeBrowser, Json.isNull]

theorem rt_request (r : Request) (h : ValidRequest r) :
    decodeRequest (encodeRequest r) = .ok r := by
  obtain ⟨method, url, http_version, cookies, headers, query_string,
    post_data, headers_size, body_size, comment⟩ := r
  obtain ⟨h1, h2⟩ := h
  simp only [SizeOk] at h1 h2
  cases post_data <;> cases headers_size <;> cases body_size <;> cases comment <;>
    simp_all [encodeRequest, decodeRequest, optF, reqString, reqArr,
      decList_map_of rt_cookie, decList_map_of rt_header,
      decList_map_of rt_qsp, optEnt, isNull_encodePostData, rt_postData,
      optSize, optString, List.lookup, Except.bind, bind]

theorem rt_response (r : Response) (h : ValidResponse r) :
    decodeResponse (encodeResponse r) = .ok r := by
  obtain ⟨status, status_text, http_version, cookies, headers, content,
    redirect_url, headers_size, body_size, comment⟩ := r
  obtain ⟨h1, h2⟩ := h
  simp only [SizeOk] at h1 h2
  cases headers_size <;> cases body_size <;> cases comment <;>
    simp_all [encodeResponse, decodeResponse, optF, reqInt, reqString, reqArr,
      decList_map_of rt_cookie, decList_map_of rt_header, reqEnt, rt_content,
      optSize, optString, List.lookup, Except.bind, bind]

theorem rt_entry (e : Entry) (h : ValidEntry e) :
    decodeEntry (encodeEntry e) = .ok e := by
  obtain ⟨pageref, sdt, request, response, cache, timings, sip, connection,
    comment⟩ := e
  obtain ⟨hreq, hresp⟩ := h
  cases pageref <;> cases sip <;> cases connection <;> cases comment <;>
    simp [encodeEntry, decodeEntry, optF, reqString, reqEnt,
      rt_request request hreq, rt_response response hresp, rt_cache, rt_timing,
      optString, List.lookup, Except.bind, bind]

theorem decList_entry (es : List Entry) (h : ∀ e ∈ es, ValidEntry e) :
    decList decodeEntry (es.map encodeEntry) = .ok es := by
  induction es with
  | nil => simp [decList]
  | cons e es ih =>
    simp [decList, rt_entry e (h e (by simp)),
      ih (fun x hx => h x (by simp [hx])), Except.bind, bind]

theorem rt_log (l : Log) (h : ValidLog l) : decodeLog (encodeLog l) = .ok l := by
  obtain ⟨version, creator, browser, pages, entries, comment⟩ := l
  have he : decList decodeEntry (entries.map encodeEntry) = .ok entries :=
    decList_entry entries h
  cases browser <;> cases pages <;> cases comment <;>
    simp [encodeLog, decodeLog, optF, reqString, reqEnt, rt_creator, optEnt,
      isNull_encodeBrowser, rt_browser, optArr, decList_map_of rt_page,
      reqArr, he, optString, List.lookup, isNull_null, Except.bind, bind]

/-! ## Claim theorems -/

/-- Claim C1: the `OptionalTiming` codec uses a single JSON number on
the wire: encoding a concrete duration `v` produces the number `v` and
encoding not-applicable produces exactly `-1`; decoding a number `>= 0`
yields the concrete duration, decoding `-1` yields not-applicable, and
decoding any other negative number fails with an `invalidTiming` error. -/
theorem optional_timing_wire_codec :
    (∀ v : Nat, encodeOptionalTiming (.TimedContent v) = .num v) ∧
    (encodeOptionalTiming .NotApplicable = .num (-1)) ∧
    (∀ (p : String) (n : Int), 0 ≤ n →
      decodeOptionalTiming p (.num n) = .ok (.TimedContent n.toNat)) ∧
    (∀ p : String, decodeOptionalTiming p (.num (-1)) = .ok .NotApplicable) ∧
    (∀ (p : String) (n : Int), n < -1 →
      decodeOptionalTiming p (.num n) = .error (.invalidTiming p)) := by
  refine ⟨fun v => rfl, rfl, fun p n h => ?_,
    fun p => by simp [decodeOptionalTiming], fun p n h => ?_⟩
  · simp [decodeOptionalTiming, h]
  · have h1 : ¬ (0 ≤ n) := by omega
    have h2 : ¬ (n = -1) := by omega
    simp [decodeOptionalTiming, h1, h2]

/-- Witness for C1 at concrete inputs: decoding `0` and `7` yields
concrete durations, decoding `-2` fails with `invalidTiming`. -/
theorem optional_timing_wire_codec_witness :
    ((0 : Int) ≤ 7 ∧
      decodeOptionalTiming "t" (.num 7) = .ok (.TimedContent (7 : Int).toNat)) ∧
    ((0 : Int) ≤ 0 ∧
      decodeOptionalTiming "t" (.num 0) = .ok (.TimedContent (0 : Int).toNat)) ∧
    ((-2 : Int) < -1 ∧
      decodeOptionalTiming "t" (.num (-2)) = .error (.invalidTiming "t")) :=
  ⟨⟨by norm_num, optional_timing_wire_codec.2.2.1 "t" 7 (by norm_num)⟩,
   ⟨le_refl 0, optional_timing_wire_codec.2.2.1 "t" 0 (le_refl 0)⟩,
   ⟨by norm_num, optional_timing_wire_codec.2.2.2.2 "t" (-2) (by norm_num)⟩⟩

/-- Claim C2: each `CacheState` sub-field of a `Cache` encodes `Unknown`
as an entirely absent key, `Absent` as the key with JSON null, and
`Present` as the key with the encoded `CacheEntry` object; decoding is
the exact inverse, so `{}` decodes to both sub-states `Unknown`, both
keys null decodes to `Absent`/`Absent`, and a valid `beforeRequest`
entry with `afterRequest` omitted decodes to `Present`/`Unknown`. -/
theorem cache_state_tri_state_codec :
    (∀ k, cacheStateField k .Unknown = []) ∧
    (∀ k, cacheStateField k .Absent = [(k, Json.null)]) ∧
    (∀ k e, cacheStateField k (.Present e) = [(k, encodeCacheEntry e)]) ∧
    (∀ c : Cache, decodeCache (encodeCache c) = .ok c) ∧
    (decodeCache (.obj []) =
      .ok { before_request := .Unknown, after_request := .Unknown, comment := none }) ∧
    (decodeCache (.obj [("beforeRequest", .null), ("afterRequest", .null)]) =
      .ok { before_request := .Absent, after_request := .Absent, comment := none }) ∧
    (∀ e : CacheEntry, decodeCache (.obj [("beforeRequest", encodeCacheEntry e)]) =
      .ok { before_request := .Present e, after_request := .Unknown, comment := none }) := by
  refine ⟨fun k => rfl, fun k => rfl, fun k e => rfl, rt_cache, rfl, rfl,
    fun e => ?_⟩
  simp [decodeCache, cacheStateOf, optString, List.lookup,
    isNull_encodeCacheEntry, rt_cacheEntry, Except.bind, bind]

/-- Claim C8: every log reachable from `Log::new` by `add_page` and
`add_entry` calls has `pages` either absent or non-empty; `Log::new`
starts with no pages and an empty entry list, and `add_page` moves
`pages` from absent to one element, appending thereafter. -/
theorem log_pages_never_present_empty :
    (∀ (b : Option Browser) (c : Option String),
      (Log.new b c).pages = none ∧ (Log.new b c).entries = []) ∧
    (∀ (l : Log) (p : Page), l.pages = none → (l.add_page p).pages = some [p]) ∧
    (∀ (l : Log) (p : Page) (ps : List Page), l.pages = some ps →
      (l.add_page p).pages = some (ps ++ [p])) ∧
    (∀ l : Log, ReachableLog l →
      l.pages = none ∨ ∃ ps, l.pages = some ps ∧ ps ≠ []) := by
  refine ⟨fun b c => ⟨rfl, rfl⟩, fun l p h => by simp [Log.add_page, h],
    fun l p ps h => by simp [Log.add_page, h], fun l hl => ?_⟩
  induction hl with
  | new b c => exact Or.inl rfl
  | add_page l p hl ih =>
    rcases ih with h | ⟨ps, hps, hne⟩
    · exact Or.inr ⟨[p], by simp [Log.add_page, h], by simp⟩
    · exact Or.inr ⟨ps ++ [p], by simp [Log.add_page, hps], by simp⟩
  | add_entry l e hl ih => exact ih

/-- Witness for C8 at concrete logs: the fresh log, one `add_page`
transition from absent, and one append onto an existing page list. -/
theorem log_pages_never_present_empty_witness :
    ((Log.new none none).pages = none ∧
      ((Log.new none none).add_page samplePage).pages = some [samplePage]) ∧
    (((Log.new none none).add_page samplePage).pages = some [samplePage] ∧
      (((Log.new none none).add_page samplePage).add_page samplePage).pages =
        some ([samplePage] ++ [samplePage])) ∧
    (((Log.new none none).add_page samplePage).pages = none ∨
      ∃ ps, ((Log.new none none).add_page samplePage).pages = some ps ∧ ps ≠ []) :=
  ⟨⟨rfl, log_pages_never_present_empty.2.1 (Log.new none none) samplePage rfl⟩,
   ⟨rfl, log_pages_never_present_empty.2.2.1
      ((Log.new none none).add_page samplePage) samplePage [samplePage] rfl⟩,
   log_pages_never_present_empty.2.2.2 _
     (ReachableLog.add_page _ _ (ReachableLog.new none none))⟩

/-- Claim C10: `add_entry` appends the entry at the end of `entries` and
leaves every other field of the log unchanged; `add_page` changes only
the `pages` field. -/
theorem add_operations_frame :
    (∀ (l : Log) (e : Entry),
      (l.add_entry e).entries = l.entries ++ [e] ∧
      (l.add_entry e).version = l.version ∧
      (l.add_entry e).creator = l.creator ∧
      (l.add_entry e).browser = l.browser ∧
      (l.add_entry e).pages = l.pages ∧
      (l.add_entry e).comment = l.comment) ∧
    (∀ (l : Log) (p : Page),
      (l.add_page p).version = l.version ∧
      (l.add_page p).creator = l.creator ∧
      (l.add_page p).browser = l.browser ∧
      (l.add_page p).entries = l.entries ∧
      (l.add_page p).comment = l.comment) := by
  refine ⟨fun l e => ⟨rfl, rfl, rfl, rfl, rfl, rfl⟩, fun l p => ?_⟩
  obtain ⟨version, creator, browser, pages, entries, comment⟩ := l
  cases pages <;> simp [Log.add_page]

/-- Claim C3: class-3 optional fields (`Log.browser`, `Log.pages`,
`Log.comment`, `Cookie.path`, `Content.text`) are omitted entirely from
the encoded object when absent, never emitted as JSON null; a freshly
constructed `Log` encodes with no `pages` key, and after one `add_page`
call it encodes `pages` as a one-element array. -/
theorem optional_fields_key_omission :
    (∀ (b : Option Browser) (c : Option String),
      (encodeLog (Log.new b c)).getKey "pages" = none) ∧
    (∀ (b : Option Browser) (c : Option String) (p : Page),
      (encodeLog ((Log.new b c).add_page p)).getKey "pages" =
        some (.arr [encodePage p])) ∧
    (∀ l : Log, l.browser = none → (encodeLog l).getKey "browser" = none) ∧
    (∀ l : Log, l.pages = none → (encodeLog l).getKey "pages" = none) ∧
    (∀ l : Log, l.comment = none → (encodeLog l).getKey "comment" = none) ∧
    (∀ c : Cookie, c.path = none → (encodeCookie c).getKey "path" = none) ∧
    (∀ c : Content, c.text = none → (encodeContent c).getKey "text" = none) := by
  refine ⟨fun b c => ?_, fun b c p => ?_, fun l h => ?_, fun l h => ?_,
    fun l h => ?_, fun c h => ?_, fun c h => ?_⟩
  · cases b <;> cases c <;>
      simp [Log.new, encodeLog, Json.getKey, optF, List.lookup]
  · cases b <;> cases c <;>
      simp [Log.new, Log.add_page, encodeLog, Json.getKey, optF, List.lookup]
  · obtain ⟨version, creator, browser, pages, entries, comment⟩ := l
    subst h
    cases pages <;> cases comment <;>
      simp [encodeLog, Json.getKey, optF, List.lookup]
  · obtain ⟨version, creator, browser, pages, entries, comment⟩ := l
    subst h
    cases browser <;> cases comment <;>
      simp [encodeLog, Json.getKey, optF, List.lookup]
  · obtain ⟨version, creator, browser, pages, entries, comment⟩ := l
    subst h
    cases browser <;> cases pages <;>
      simp [encodeLog, Json.getKey, optF, List.lookup]
  · obtain ⟨name, value, path, domain, expires, http_only, secure, comment⟩ := c
    subst h
    cases domain <;> cases expires <;> cases http_only <;> cases secure <;>
      cases comment <;> simp [encodeCookie, Json.getKey, optF, List.lookup]
  · obtain ⟨size, compression, mime_type, text, encoding, comment⟩ := c
    subst h
    cases compression <;> cases encoding <;> cases comment <;>
      simp [encodeContent, Json.getKey, optF, List.lookup]

/-- Witness for C3 at concrete values: a cookie with no path and a
content with no text encode without those keys. -/
theorem optional_fields_key_omission_witness :
    (sampleCookie.path = none ∧ (encodeCookie sampleCookie).getKey "path" = none) ∧
    (sampleContent.text = none ∧ (encodeContent sampleContent).getKey "text" = none) ∧
    (sampleLog.comment = none ∧ (encodeLog sampleLog).getKey "comment" = none) :=
  ⟨⟨rfl, optional_fields_key_omission.2.2.2.2.2.1 sampleCookie rfl⟩,
   ⟨rfl, optional_fields_key_omission.2.2.2.2.2.2 sampleContent rfl⟩,
   ⟨rfl, optional_fields_key_omission.2.2.2.1 sampleLog rfl⟩⟩

/-- Claim C5: mandatory ordered-sequence fields (`Request.cookies`,
`Request.headers`, `Request.queryString`, `Log.entries`) always encode
as a present JSON array, even when empty; decoding an object missing
such a key succeeds with an empty sequence. -/
theorem mandatory_sequences_always_present :
    (∀ r : Request,
      (encodeRequest r).getKey "cookies" = some (.arr (r.cookies.map encodeCookie)) ∧
      (encodeRequest r).getKey "headers" = some (.arr (r.headers.map encodeHeader)) ∧
      (encodeRequest r).getKey "queryString" =
        some (.arr (r.query_string.map encodeQueryStringPair))) ∧
    (∀ l : Log,
      (encodeLog l).getKey "entries" = some (.arr (l.entries.map encodeEntry))) ∧
    (decodeRequest (.obj [("method", .str "GET"), ("url", .str "u"),
        ("httpVersion", .str "h")]) =
      .ok { method := "GET", url := "u", http_version := "h", cookies := [],
            headers := [], query_string := [], post_data := none,
            headers_size := none, body_size := none, comment := none }) ∧
    (decodeLog (.obj [("version", .str "1.2"),
        ("creator", .obj [("name", .str "X"), ("version", .str "1")])]) =
      .ok { version := "1.2",
            creator := { name := "X", version := "1", comment := none },
            browser := none, pages := none, entries := [], comment := none }) := by
  refine ⟨fun r => ⟨rfl, rfl, rfl⟩, fun l => ?_, rfl, rfl⟩
  obtain ⟨version, creator, browser, pages, entries, comment⟩ := l
  cases browser <;> cases pages <;>
    simp [encodeLog, Json.getKey, optF, List.lookup]

/-- Claim C6: decoding returns an error value rather than panicking or
substituting defaults: a missing mandatory key gives `missingField`, a
wrongly shaped value gives `typeMismatch`, the error names the entity
and field, and the result is all-or-nothing (either a full value or an
error, never a partial entity). -/
theorem decode_returns_typed_errors :
    (∀ fs : List (String × Json), fs.lookup "name" = none →
      decodeCreator (.obj fs) = .error (.missingField "Creator.name")) ∧
    (∀ (fs : List (String × Json)) (j : Json), fs.lookup "name" = some j →
      (∀ s, j ≠ .str s) →
      decodeCreator (.obj fs) = .error (.typeMismatch "Creator.name")) ∧
    (∀ j : Json, (∃ c, decodeCreator j = .ok c) ∨
      (∃ e, decodeCreator j = .error e)) := by
  refine ⟨fun fs h => ?_, fun fs j h hj => ?_, fun j => ?_⟩
  · simp [decodeCreator, reqString, h, Except.bind, bind]
  · cases j with
    | str s => exact absurd rfl (hj s)
    | null => simp [decodeCreator, reqString, h, Except.bind, bind]
    | bool b => simp [decodeCreator, reqString, h, Except.bind, bind]
    | num n => simp [decodeCreator, reqString, h, Except.bind, bind]
    | arr xs => simp [decodeCreator, reqString, h, Except.bind, bind]
    | obj gs => simp [decodeCreator, reqString, h, Except.bind, bind]
  · cases hd : decodeCreator j with
    | ok c => exact Or.inl ⟨c, rfl⟩
    | error e => exact Or.inr ⟨e, rfl⟩

/-- Witness for C6 at concrete inputs: an empty object is missing the
mandatory `name` key; a numeric `name` has the wrong shape. -/
theorem decode_returns_typed_errors_witness :
    (List.lookup "name" ([] : List (String × Json)) = none ∧
      decodeCreator (.obj []) = .error (.missingField "Creator.name")) ∧
    (List.lookup "name" [("name", Json.num 0)] = some (Json.num 0) ∧
      decodeCreator (.obj [("name", Json.num 0)]) =
        .error (.typeMismatch "Creator.name")) :=
  ⟨⟨rfl, decode_returns_typed_errors.1 [] rfl⟩,
   ⟨rfl, decode_returns_typed_errors.2.1 [("name", Json.num 0)] (Json.num 0) rfl
      (fun _ h => Json.noConfusion h)⟩⟩

theorem lookup_cons_of_ne {k k2 : String} {v : Json}
    (fs : List (String × Json)) (h : k2 ≠ k) :
    List.lookup k2 ((k, v) :: fs) = List.lookup k2 fs := by
  have hb : (k2 == k) = false := beq_eq_false_iff_ne.mpr h
  simp [List.lookup, hb]

/-- Claim C7: decoding ignores extra keys outside the schema: adding any
non-schema key (such as `time`) to a `Log` object leaves the decoded
value unchanged. -/
theorem decode_ignores_unknown_keys :
    ∀ k : String,
      k ∉ ["version", "creator", "browser", "pages", "entries", "comment"] →
      ∀ (v : Json) (fs : List (String × Json)),
        decodeLog (.obj ((k, v) :: fs)) = decodeLog (.obj fs) := by
  intro k hk v fs
  simp only [List.mem_cons, List.mem_singleton, List.not_mem_nil, or_false,
    not_or] at hk
  obtain ⟨h1, h2, h3, h4, h5, h6⟩ := hk
  simp only [decodeLog, reqString, reqEnt, optEnt, optArr, reqArr, optString,
    lookup_cons_of_ne fs (Ne.symm h1), lookup_cons_of_ne fs (Ne.symm h2),
    lookup_cons_of_ne fs (Ne.symm h3), lookup_cons_of_ne fs (Ne.symm h4),
    lookup_cons_of_ne fs (Ne.symm h5), lookup_cons_of_ne fs (Ne.symm h6)]

/-- Witness for C7: adding `"time": 15` on top of a log object does not
change the decoded value. -/
theorem decode_ignores_unknown_keys_witness :
    ("time" ∉ ["version", "creator", "browser", "pages", "entries", "comment"]) ∧
    decodeLog (.obj (("time", Json.num 15) :: [("version", Json.str "1.2")])) =
      decodeLog (.obj [("version", Json.str "1.2")]) :=
  ⟨by decide,
   decode_ignores_unknown_keys "time" (by decide) (Json.num 15)
     [("version", Json.str "1.2")]⟩

/-- Claim C4: for every entity type in the model, decoding the encoding
of a valid value returns that value: `decode(encode(x)) = ok x`.  For
`Request`, `Response`, `Entry` and `Log`, validity excludes a present
`headersSize`/`bodySize` of `-1`, which the wire format cannot
distinguish from the absent value (see `optSize`). -/
theorem decode_encode_round_trip :
    (∀ x : Creator, decodeCreator (encodeCreator x) = .ok x) ∧
    (∀ x : Browser, decodeBrowser (encodeBrowser x) = .ok x) ∧
    (∀ x : PageTimings, decodePageTimings (encodePageTimings x) = .ok x) ∧
    (∀ x : Page, decodePage (encodePage x) = .ok x) ∧
    (∀ x : Cookie, decodeCookie (encodeCookie x) = .ok x) ∧
    (∀ x : Header, decodeHeader (encodeHeader x) = .ok x) ∧
    (∀ x : QueryStringPair, decodeQueryStringPair (encodeQueryStringPair x) = .ok x) ∧
    (∀ x : Param, decodeParam (encodeParam x) = .ok x) ∧
    (∀ x : PostData, decodePostData (encodePostData x) = .ok x) ∧
    (∀ x : Content, decodeContent (encodeContent x) = .ok x) ∧
    (∀ x : CacheEntry, decodeCacheEntry (encodeCacheEntry x) = .ok x) ∧
    (∀ (p k : String) (x : CacheState),
      cacheStateOf p (cacheStateField k x) k = .ok x) ∧
    (∀ x : Cache, decodeCache (encodeCache x) = .ok x) ∧
    (∀ (p : String) (x : OptionalTiming),
      decodeOptionalTiming p (encodeOptionalTiming x) = .ok x) ∧
    (∀ x : Timing, decodeTiming (encodeTiming x) = .ok x) ∧
    (∀ x : Request, ValidRequest x → decodeRequest (encodeRequest x) = .ok x) ∧
    (∀ x : Response, ValidResponse x → decodeResponse (encodeResponse x) = .ok x) ∧
    (∀ x : Entry, ValidEntry x → decodeEntry (encodeEntry x) = .ok x) ∧
    (∀ x : Log, ValidLog x → decodeLog (encodeLog x) = .ok x) :=
  ⟨rt_creator, rt_browser, rt_pageTimings, rt_page, rt_cookie, rt_header,
   rt_qsp, rt_param, rt_postData, rt_content, rt_cacheEntry, rt_cacheState,
   rt_cache, rt_optTiming, rt_timing, rt_request, rt_response, rt_entry,
   rt_log⟩

/-- Witness for C4 at a concrete log with one entry: the validity side
conditions hold and the round trip returns the same log. -/
theorem decode_encode_round_trip_witness :
    ValidLog sampleLog ∧ decodeLog (encodeLog sampleLog) = .ok sampleLog :=
  ⟨by decide,
   decode_encode_round_trip.2.2.2.2.2.2.2.2.2.2.2.2.2.2.2.2.2.2 sampleLog
     (by decide)⟩

/-- Claim C9 as stated is false on this codec: decoding a `Request`
whose `headersSize` is the number `-1` yields the absent model value,
not a present `-1` (matching the source tests `test_request_no_optional`
and `test_response_no_optional`). -/
theorem headers_size_decode_counterexample :
    decodeRequest (.obj [("method", .str "GET"), ("url", .str "u"),
        ("httpVersion", .str "h"), ("headersSize", .num (-1))]) =
      .ok { method := "GET", url := "u", http_version := "h", cookies := [],
            headers := [], query_string := [], post_data := none,
            headers_size := none, body_size := none, comment := none } ∧
    ¬ ∃ r : Request,
        decodeRequest (.obj [("method", .str "GET"), ("url", .str "u"),
            ("httpVersion", .str "h"), ("headersSize", .num (-1))]) = .ok r ∧
        r.headers_size = some (-1) := by
  have h1 : decodeRequest (.obj [("method", .str "GET"), ("url", .str "u"),
      ("httpVersion", .str "h"), ("headersSize", .num (-1))]) =
      .ok { method := "GET", url := "u", http_version := "h", cookies := [],
            headers := [], query_string := [], post_data := none,
            headers_size := none, body_size := none, comment := none } := rfl
  refine ⟨h1, ?_⟩
  rintro ⟨r, hr, hs⟩
  rw [h1] at hr
  injection hr with h2
  subst h2
  simp at hs

/-- Claim C9, amended: the `headersSize`/`bodySize` decoder maps the
wire value `-1` to the absent model value, maps every other JSON
integer to a present value, and an absent model value encodes by the
generic optional-field omission (no key emitted). -/
theorem headers_size_sentinel_decode :
    (∀ (p k : String) (fs : List (String × Json)),
      fs.lookup k = some (.num (-1)) → optSize p fs k = .ok none) ∧
    (∀ (p k : String) (fs : List (String × Json)) (n : Int),
      fs.lookup k = some (.num n) → n ≠ -1 → optSize p fs k = .ok (some n)) ∧
    (∀ r : Request, r.headers_size = none →
      (encodeRequest r).getKey "headersSize" = none) ∧
    (∀ r : Request, r.body_size = none →
      (encodeRequest r).getKey "bodySize" = none) ∧
    (∀ r : Response, r.headers_size = none →
      (encodeResponse r).getKey "headersSize" = none) ∧
    (∀ r : Response, r.body_size = none →
      (encodeResponse r).getKey "bodySize" = none) := by
  refine ⟨fun p k fs h => by simp [optSize, h], fun p k fs n h hn => ?_,
    fun r h => ?_, fun r h => ?_, fun r h => ?_, fun r h => ?_⟩
  · simp [optSize, h, hn]
  · obtain ⟨method, url, http_version, cookies, headers, query_string,
      post_data, headers_size, body_size, comment⟩ := r
    subst h
    cases post_data <;> cases body_size <;> cases comment <;>
      simp [encodeRequest, Json.getKey, optF, List.lookup]
  · obtain ⟨method, url, http_version, cookies, headers, query_string,
      post_data, headers_size, body_size, comment⟩ := r
    subst h
    cases post_data <;> cases headers_size <;> cases comment <;>
      simp [encodeRequest, Json.getKey, optF, List.lookup]
  · obtain ⟨status, status_text, http_version, cookies, headers, content,
      redirect_url, headers_size, body_size, comment⟩ := r
    subst h
    cases body_size <;> cases comment <;>
      simp [encodeResponse, Json.getKey, optF, List.lookup]
  · obtain ⟨status, status_text, http_version, cookies, headers, content,
      redirect_url, headers_size, body_size, comment⟩ := r
    subst h
    cases headers_size <;> cases comment <;>
      simp [encodeResponse, Json.getKey, optF, List.lookup]

/-- Witness for the amended C9 at concrete inputs: the wire `-1` decodes
to absent, `5` decodes to present `5`, and an absent size omits the key. -/
theorem headers_size_sentinel_decode_witness :
    (List.lookup "headersSize" [("headersSize", Json.num (-1))] =
        some (Json.num (-1)) ∧
      optSize "p" [("headersSize", Json.num (-1))] "headersSize" = .ok none) ∧
    (List.lookup "headersSize" [("headersSize", Json.num 5)] =
        some (Json.num 5) ∧ (5 : Int) ≠ -1 ∧
      optSize "p" [("headersSize", Json.num 5)] "headersSize" = .ok (some 5)) ∧
    (sampleRequest.headers_size = none ∧
      (encodeRequest sampleRequest).getKey "headersSize" = none) :=
  ⟨⟨rfl, headers_size_sentinel_decode.1 "p" "headersSize" _ rfl⟩,
   ⟨rfl, by norm_num,
    headers_size_sentinel_decode.2.1 "p" "headersSize" _ 5 rfl (by norm_num)⟩,
   ⟨rfl, headers_size_sentinel_decode.2.2.1 sampleRequest rfl⟩⟩

end Har
